import Mathlib

/-!
Verification of the Arch_install repository (install.py, install_util.py).

The installer is a sequential pipeline over a mutable configuration mapping
plus external subprocess invocations.  We shallowly embed the parts of the
two Python modules that the claims are about:

* the configuration mapping (`configparser` section proxies) becomes an
  association list `Config` with first-match lookup; assignment prepends,
  which is observationally the same for lookup;
* the filesystem is an oracle `fs : String → Bool` standing for
  `os.path.exists`;
* a pipeline stage becomes a pure function returning the list of subprocess
  command strings it issued, the error it raised (if any), and the config
  keys it wrote — the Python methods read config keys and run their
  precondition checks strictly before the first `execute` call, so an error
  implies an empty command list, exactly as in the source;
* `subprocess.run` (via `execute` in install_util.py) is modelled by an
  oracle `spawn : String → Option Int` giving the exit code of a spawned
  command, or `none` when spawning itself raises (e.g. FileNotFoundError).
  `execute` never passes `check=True`, so a non-zero exit code does not
  raise — only a spawn failure propagates;
* `re.match` (anchored search used by `replace_in_file`) is embedded by a
  small regular-expression engine covering the constructs the repository
  uses: literal characters, `.` and postfix `*`;
* Python exception objects become the inductive `InstallError`; each
  constructor corresponds to one raise site (or exception class) in the
  source and `InstallError.message` renders `str(e)` for the sites whose
  text the claims mention.
-/

/-- A configparser section proxy: association list with first-match lookup. -/
abbrev Config := List (String × String)

/-- A parsed config file: named sections, as `ConfigParser` exposes them. -/
abbrev ConfFile := List (String × List (String × String))

/-- First-match lookup in an association list keyed by strings. -/
def assocGet {α : Type} : List (String × α) → String → Option α
  | [], _ => none
  | (k, v) :: rest, key => if k = key then some v else assocGet rest key

/-- Lookup of a settings key in a section (`section[key]` / `key in section`). -/
def cfgGet (cfg : Config) (k : String) : Option String := assocGet cfg k

/-- Assignment `section[key] = value`: prepend, so lookup sees the new value. -/
def cfgSet (cfg : Config) (k v : String) : Config := (k, v) :: cfg

/-- Lookup of a section in the parsed config file (`config_file[name]`). -/
def secGet (f : ConfFile) (name : String) : Option (List (String × String)) :=
  assocGet f name

/-- Exceptions raised by the installer, one constructor per raise site. -/
inductive InstallError where
  /-- install.py line 69: the config file path is not a file. -/
  | configFileMissing (path : String)
  /-- install.py line 76: a required header is absent. -/
  | headerMissing (h : String)
  /-- KeyError raised by a section lookup such as `config_file["Yay.Pkgs"]`. -/
  | sectionKeyError (s : String)
  /-- install.py line 85: a required settings key is absent. -/
  | configKeyMissing (k : String)
  /-- KeyError raised by a settings lookup `self.config[key]` in a stage. -/
  | keyLookup (k : String)
  /-- install_util.py line 41: a path in `validate_file_paths` is absent. -/
  | pathNotFound (msg : String)
  /-- Any other raise site, carrying the formatted message. -/
  | genericError (msg : String)
deriving DecidableEq

/-- The text `str(e)` of an exception, for the sites the claims mention.
For the two KeyError constructors the key itself is the payload. -/
def InstallError.message : InstallError → String
  | .configFileMissing p => p ++ " does not exist"
  | .headerMissing h => "Header " ++ h ++ " not found in config file"
  | .sectionKeyError s => s
  | .configKeyMissing k => "Key " ++ k ++ " missing from Install.Config section of config"
  | .keyLookup k => k
  | .pathNotFound m => m
  | .genericError m => m

/-- CONFIG_FILE_SETTINGS (install.py lines 30-32), in source literal order. -/
def CONFIG_FILE_SETTINGS_LIST : List String :=
  ["mount_path", "efi_size", "swap_size", "root_size", "luks_name",
   "volume_group", "hostname", "sudo_user", "tz.region",
   "tz.city", "locale", "language", "enable_services"]

/-- CONFIG_RUNTIME_SETTINGS (install.py lines 33-34), in source literal order. -/
def CONFIG_RUNTIME_SETTINGS_LIST : List String :=
  ["install_disk", "partitions.phys.efi", "partitions.phys.luks",
   "partitions.lvm.swap", "partitions.lvm.root", "partitions.lvm.home"]

/-- The message of the exception raised at install_util.py line 41.  The
source writes `raise Exception("{} does not exist")` without `.format(path)`,
so the braces are literal text and the path is never interpolated. -/
def pathErrMsg : String := "\x7b\x7d does not exist"

/-- install_util.py `validate_file_paths`: first absent path raises. -/
def validate_file_paths (fs : String → Bool) : List String → Option String
  | [] => none
  | p :: ps => if fs p then validate_file_paths fs ps else some pathErrMsg

/-- Prefix test on character lists (needle, haystack). -/
def chPre : List Char → List Char → Bool
  | [], _ => true
  | _ :: _, [] => false
  | a :: as, b :: bs => a == b && chPre as bs

/-- Substring search on character lists (needle, haystack). -/
def chSubL : List Char → List Char → Bool
  | n, [] => chPre n []
  | n, c :: cs => chPre n (c :: cs) || chSubL n cs

/-- `needle` occurs as a contiguous substring of `hay`. -/
def strContainsSub (hay needle : String) : Bool := chSubL needle.toList hay.toList

/-- `" ".join(...)` over a list of strings. -/
def joinSpace (l : List String) : String := String.intercalate " " l

/-- Helper for `splitWs`: scan characters, accumulating the current word
in reverse; whitespace ends a word, leading or repeated whitespace yields
no empty words. -/
def splitWsAux : List Char → List Char → List String
  | [], cur => if cur.isEmpty then [] else [String.mk cur.reverse]
  | c :: cs, cur =>
    if c.isWhitespace then
      if cur.isEmpty then splitWsAux cs []
      else String.mk cur.reverse :: splitWsAux cs []
    else splitWsAux cs (c :: cur)

/-- Python `str.split()`: split on whitespace, dropping empty pieces. -/
def splitWs (s : String) : List String := splitWsAux s.toList []

/-- One atom of the regular-expression subset the repository uses:
a literal character, `.`, or a starred atom. -/
inductive RAtom where
  | lit (c : Char)
  | dot
  | star (b : RAtom)
deriving DecidableEq

/-- Does a single atom match one character?  `.` does not match a newline
(re.DOTALL is not set in the source). -/
def matchAtom : RAtom → Char → Bool
  | RAtom.lit a, c => a == c
  | RAtom.dot, c => c != '\n'
  | RAtom.star b, c => matchAtom b c

/-- Fuelled matcher: every recursive call strictly decreases
`pattern.length + s.length`, so any fuel above that bound gives the exact
backtracking semantics.  Fuel keeps the recursion structural, hence
kernel-evaluable. -/
def matchSeqF : Nat → List RAtom → List Char → Bool
  | 0, _, _ => false
  | _ + 1, [], _ => true
  | f + 1, RAtom.star _ :: as, [] => matchSeqF f as []
  | f + 1, RAtom.star b :: as, c :: cs =>
      matchSeqF f as (c :: cs) || (matchAtom b c && matchSeqF f (RAtom.star b :: as) cs)
  | _ + 1, RAtom.lit _ :: _, [] => false
  | _ + 1, RAtom.dot :: _, [] => false
  | f + 1, RAtom.lit a :: as, c :: cs => (a == c) && matchSeqF f as cs
  | f + 1, RAtom.dot :: as, c :: cs => (c != '\n') && matchSeqF f as cs

/-- Does the atom sequence match some prefix of the character list?  This is
the truth value of `re.match(pattern, line)`: anchored at the start, free at
the end. -/
def matchSeq (r : List RAtom) (s : List Char) : Bool :=
  matchSeqF (r.length + s.length + 1) r s

/-- Scan a pattern into a reversed atom list; `*` wraps the previous atom. -/
def parseRegexRev : List Char → List RAtom → List RAtom
  | [], acc => acc
  | c :: cs, acc =>
    if c = '*' then
      match acc with
      | [] => parseRegexRev cs acc
      | a :: rest => parseRegexRev cs (RAtom.star a :: rest)
    else if c = '.' then parseRegexRev cs (RAtom.dot :: acc)
    else parseRegexRev cs (RAtom.lit c :: acc)

/-- Compile a pattern string to an atom sequence. -/
def parseRegex (p : String) : List RAtom := (parseRegexRev p.toList []).reverse

/-- Truth value of `re.match(pattern, s)`. -/
def re_match (pattern s : String) : Bool := matchSeq (parseRegex pattern) s.toList

/-- The write loop of install_util.py `replace_in_file`: for each line, write
the replacement if the line matches, else the line itself. -/
def replaceWriteLoop (p r : String) : List String → List String → List String
  | acc, [] => acc
  | acc, l :: ls => replaceWriteLoop p r (acc ++ [if re_match p l then r else l]) ls

/-- The final content written by `replace_in_file` (file viewed as its list
of lines, as produced by `readlines`). -/
def replace_in_file (p r : String) (lines : List String) : List String :=
  replaceWriteLoop p r [] lines

/-- The sequence of on-disk contents of the target file during
`replace_in_file`: the original content, then — after `open(path, "w")`
truncates the file — the content after each `file.write(line)`, i.e. every
prefix of the new content in order, ending with the complete new content. -/
def replaceDiskStates (p r : String) (lines : List String) : List (List String) :=
  lines ::
    (List.range ((replace_in_file p r lines).length + 1)).map
      (fun i => (replace_in_file p r lines).take i)

/-- The key-validation loop of install.py lines 83-85: first missing key in
iteration order is reported. -/
def checkKeys (s : Config) : List String → Option String
  | [] => none
  | k :: ks => if (cfgGet s k).isSome then checkKeys s ks else some k

/-- The state held by an `Installer` after `__init__`. -/
structure InstallerState where
  pacman_pkgs : String
  yay_pkgs : String
  config : Config
deriving DecidableEq

/-- install.py `Installer.__init__`: file-existence check, header checks,
package-list joins (the `Yay.Pkgs` section lookup can raise KeyError),
required-key validation, then blanking of the runtime keys. -/
def installerInit (isfile : Bool) (f : ConfFile) : Except InstallError InstallerState :=
  if isfile = false then Except.error (InstallError.configFileMissing "config.txt")
  else
    match secGet f "Pacman.Pkgs" with
    | none => Except.error (InstallError.headerMissing "Pacman.Pkgs")
    | some pacSec =>
      match secGet f "Install.Config" with
      | none => Except.error (InstallError.headerMissing "Install.Config")
      | some cfgSec =>
        match secGet f "Yay.Pkgs" with
        | none => Except.error (InstallError.sectionKeyError "Yay.Pkgs")
        | some yaySec =>
          match checkKeys cfgSec CONFIG_FILE_SETTINGS_LIST with
          | some k => Except.error (InstallError.configKeyMissing k)
          | none =>
            Except.ok
              ⟨joinSpace (pacSec.map (fun kv => kv.1)),
               joinSpace (yaySec.map (fun kv => kv.1)),
               CONFIG_RUNTIME_SETTINGS_LIST.foldl (fun c k => cfgSet c k "") cfgSec⟩

/-- Outcome of one pipeline stage: subprocess commands issued (in order),
the exception raised if any, and the config keys written. -/
structure StageResult where
  cmds : List String
  err : Option InstallError
  updates : List (String × String)
deriving DecidableEq

/-- install.py lines 142-144: the partition paths derived by `select_disk`
and recorded into the config. -/
def select_disk_update (cfg : Config) (install_disk : String) : Config :=
  cfgSet (cfgSet (cfgSet cfg "install_disk" install_disk)
      "partitions.phys.efi" (install_disk ++ "p1"))
    "partitions.phys.luks" (install_disk ++ "p2")

/-- install.py `Installer.create_lvm_partitions` (lines 177-197). -/
def create_lvm_partitions (cfg : Config) (fs : String → Bool) : StageResult :=
  match cfgGet cfg "swap_size" with
  | none => ⟨[], some (InstallError.keyLookup "swap_size"), []⟩
  | some swapSize =>
  match cfgGet cfg "root_size" with
  | none => ⟨[], some (InstallError.keyLookup "root_size"), []⟩
  | some rootSize =>
  match cfgGet cfg "volume_group" with
  | none => ⟨[], some (InstallError.keyLookup "volume_group"), []⟩
  | some volGrp =>
  match cfgGet cfg "luks_name" with
  | none => ⟨[], some (InstallError.keyLookup "luks_name"), []⟩
  | some luksName =>
    let luksPath := "/dev/mapper/" ++ luksName
    if fs luksPath then
      ⟨["pvcreate " ++ luksPath,
        "vgcreate " ++ volGrp ++ " " ++ luksPath,
        "lvcreate -L " ++ swapSize ++ " " ++ volGrp ++ " -n swap",
        "lvcreate -L " ++ rootSize ++ " " ++ volGrp ++ " -n root",
        "lvcreate -l 100%FREE " ++ volGrp ++ " -n home"],
       none,
       [("partitions.lvm.root", "/dev/" ++ volGrp ++ "/root"),
        ("partitions.lvm.home", "/dev/" ++ volGrp ++ "/home"),
        ("partitions.lvm.swap", "/dev/" ++ volGrp ++ "/swap")]⟩
    else
      ⟨[], some (InstallError.genericError (luksPath ++ " does not exist")), []⟩

/-- install.py `Installer.format_partitions` (lines 199-216). -/
def format_partitions (cfg : Config) (fs : String → Bool) : StageResult :=
  match cfgGet cfg "partitions.phys.efi" with
  | none => ⟨[], some (InstallError.keyLookup "partitions.phys.efi"), []⟩
  | some efi =>
  match cfgGet cfg "partitions.lvm.root" with
  | none => ⟨[], some (InstallError.keyLookup "partitions.lvm.root"), []⟩
  | some root =>
  match cfgGet cfg "partitions.lvm.home" with
  | none => ⟨[], some (InstallError.keyLookup "partitions.lvm.home"), []⟩
  | some home =>
  match cfgGet cfg "partitions.lvm.swap" with
  | none => ⟨[], some (InstallError.keyLookup "partitions.lvm.swap"), []⟩
  | some swap =>
  match validate_file_paths fs [efi, root, home, swap] with
  | some msg => ⟨[], some (InstallError.pathNotFound msg), []⟩
  | none =>
    ⟨["mkfs.ext4 " ++ root, "mkfs.ext4 " ++ home,
      "mkswap " ++ swap, "mkfs.fat -F32 " ++ efi], none, []⟩

/-- install.py `Installer.mount_partitions` (lines 218-238). -/
def mount_partitions (cfg : Config) (fs : String → Bool) : StageResult :=
  match cfgGet cfg "mount_path" with
  | none => ⟨[], some (InstallError.keyLookup "mount_path"), []⟩
  | some mnt =>
  match cfgGet cfg "partitions.phys.efi" with
  | none => ⟨[], some (InstallError.keyLookup "partitions.phys.efi"), []⟩
  | some efi =>
  match cfgGet cfg "partitions.lvm.root" with
  | none => ⟨[], some (InstallError.keyLookup "partitions.lvm.root"), []⟩
  | some root =>
  match cfgGet cfg "partitions.lvm.home" with
  | none => ⟨[], some (InstallError.keyLookup "partitions.lvm.home"), []⟩
  | some home =>
  match cfgGet cfg "partitions.lvm.swap" with
  | none => ⟨[], some (InstallError.keyLookup "partitions.lvm.swap"), []⟩
  | some swap =>
  match validate_file_paths fs [efi, root, home, swap] with
  | some msg => ⟨[], some (InstallError.pathNotFound msg), []⟩
  | none =>
    ⟨["mount " ++ root ++ " " ++ mnt,
      "mkdir " ++ mnt ++ "/efi",
      "mkdir " ++ mnt ++ "/home",
      "mount " ++ efi ++ " " ++ mnt ++ "/efi",
      "mount " ++ home ++ " " ++ mnt ++ "/home",
      "swapon " ++ swap], none, []⟩

/-- The loop of install.py `Installer.enable_services` (lines 341-342): one
`execute("systemctl enable <serv>", chroot_dir=mnt)` per service.  `execute`
runs `subprocess.run` without `check=True`, so the exit code is discarded
and the loop continues; only a spawn failure (`spawn cmd = none`) raises. -/
def enableLoop (mnt : String) (spawn : String → Option Int) :
    List String → List String × Option InstallError
  | [] => ([], none)
  | s :: ss =>
    let cmd := "arch-chroot " ++ mnt ++ " systemctl enable " ++ s
    match spawn cmd with
    | none => ([], some (InstallError.genericError cmd))
    | some _ =>
      let rest := enableLoop mnt spawn ss
      (cmd :: rest.1, rest.2)

/-- install.py `Installer.enable_services` (lines 335-342). -/
def enable_services (cfg : Config) (spawn : String → Option Int) :
    List String × Option InstallError :=
  match cfgGet cfg "mount_path" with
  | none => ([], some (InstallError.keyLookup "mount_path"))
  | some mnt =>
  match cfgGet cfg "enable_services" with
  | none => ([], some (InstallError.keyLookup "enable_services"))
  | some servs => enableLoop mnt spawn (splitWs servs)

/-- The config keys read by install.py `Installer.install_grub`
(lines 308-311), in source order. -/
def install_grub_read_keys : List String :=
  ["mount_path", "luks_name", "partitions.phys.luks", "initram_hooks"]

/-- The `GRUB_CMDLINE_LINUX` replacement line built at install.py line 328. -/
def grub_cmdline (luksPartition luksName : String) : String :=
  "GRUB_CMDLINE_LINUX=\"cryptdevice=" ++ luksPartition ++ ":" ++ luksName ++
    " cryptkey=rootfs:/root/" ++ luksName ++ ".keyfile\"\n"

/-- The match pattern passed to `replace_in_file` at install.py line 330. -/
def grubCmdlineMatch : String := ".*GRUB_CMDLINE_LINUX=.*"

/-- A settings section holding every required key (values are not checked
by the source, so blank values suffice). -/
def sampleSettingsAll : Config :=
  [("mount_path", "/mnt"), ("efi_size", "512M"), ("swap_size", "16G"),
   ("root_size", "128G"), ("luks_name", "cryptlvm"), ("volume_group", "vg"),
   ("hostname", "arch"), ("sudo_user", "tony"), ("tz.region", "Australia"),
   ("tz.city", "Sydney"), ("locale", "en_AU.UTF-8 UTF-8"),
   ("language", "en_AU.UTF-8"), ("enable_services", "NetworkManager")]

/-- The same section with the required key `hostname` removed. -/
def sampleSettingsNoHostname : Config :=
  [("mount_path", "/mnt"), ("efi_size", "512M"), ("swap_size", "16G"),
   ("root_size", "128G"), ("luks_name", "cryptlvm"), ("volume_group", "vg"),
   ("sudo_user", "tony"), ("tz.region", "Australia"),
   ("tz.city", "Sydney"), ("locale", "en_AU.UTF-8 UTF-8"),
   ("language", "en_AU.UTF-8"), ("enable_services", "NetworkManager")]

/-- A config file with all three consumed sections and all required keys. -/
def sampleConfFileFull : ConfFile :=
  [("Pacman.Pkgs", [("base", ""), ("linux", "")]),
   ("Yay.Pkgs", [("spotify", "")]),
   ("Install.Config", sampleSettingsAll)]

/-- A config file whose Install.Config section lacks `hostname`. -/
def sampleConfFileNoHostname : ConfFile :=
  [("Pacman.Pkgs", [("base", ""), ("linux", "")]),
   ("Yay.Pkgs", [("spotify", "")]),
   ("Install.Config", sampleSettingsNoHostname)]

/-- A config file with both validated sections and all required keys, but
no Yay.Pkgs section. -/
def sampleConfFileNoYay : ConfFile :=
  [("Pacman.Pkgs", [("base", ""), ("linux", "")]),
   ("Install.Config", sampleSettingsAll)]

/-- Unfolding the write loop of `replace_in_file`: the loop appends, to the
already-written lines, each remaining line with matching lines replaced. -/
theorem replaceWriteLoop_append (p r : String) (ls : List String) :
    ∀ acc, replaceWriteLoop p r acc ls
      = acc ++ ls.map (fun l => if re_match p l then r else l) := by
  induction ls with
  | nil => intro acc; simp [replaceWriteLoop]
  | cons l ls ih => intro acc; simp [replaceWriteLoop, ih]

/-- C3: for every file content, pattern and replacement, `replace_in_file`
produces exactly the line-wise map that replaces each line matching the
pattern by the replacement and keeps every other line verbatim, preserving
order and count; in particular, on a grub defaults file whose single
matching line is the `GRUB_CMDLINE_LINUX=` line, only that line changes. -/
theorem c3_replace_in_file_line_map :
    (∀ (p r : String) (lines : List String),
        replace_in_file p r lines
          = lines.map (fun l => if re_match p l then r else l)
        ∧ (replace_in_file p r lines).length = lines.length)
    ∧ replace_in_file grubCmdlineMatch (grub_cmdline "/dev/sda2" "cryptlvm")
        ["GRUB_TIMEOUT=5\n", "GRUB_CMDLINE_LINUX=\"\"\n",
         "GRUB_DISABLE_RECOVERY=true\n"]
      = ["GRUB_TIMEOUT=5\n", grub_cmdline "/dev/sda2" "cryptlvm",
         "GRUB_DISABLE_RECOVERY=true\n"] := by
  constructor
  · intro p r lines
    have h := replaceWriteLoop_append p r lines []
    constructor
    · simpa [replace_in_file] using h
    · simp [replace_in_file, h]
  · decide

/-- C4 counterexample: during the rewrite of a two-line file the target file
passes through the empty content, which is neither the original content nor
the complete new content — the truncate-then-write-line-by-line loop is not
atomic. -/
theorem c4_counterexample :
    ([] : List String) ∈ replaceDiskStates "x" "y\n" ["a\n", "b\n"]
    ∧ ([] : List String) ≠ ["a\n", "b\n"]
    ∧ ([] : List String) ≠ replace_in_file "x" "y\n" ["a\n", "b\n"] := by
  decide

/-- C4 amended: every on-disk content reachable during `replace_in_file` is
either the complete original content or a prefix (possibly empty, possibly
complete) of the new content: the file is truncated first and then rewritten
line by line, so a failure partway can leave a partial file. -/
theorem c4_amended_prefix (p r : String) (lines s : List String)
    (hs : s ∈ replaceDiskStates p r lines) :
    s = lines ∨ s <+: replace_in_file p r lines := by
  rcases List.mem_cons.mp hs with h | h
  · exact Or.inl h
  · rcases List.mem_map.mp h with ⟨i, _hi, rfl⟩
    exact Or.inr (List.take_prefix i _)

/-- C4 amended, witnessed at a concrete input: the empty intermediate
content is a prefix of the new content. -/
theorem c4_amended_prefix_witness :
    ([] : List String) = ["a\n", "b\n"]
    ∨ ([] : List String) <+: replace_in_file "x" "y\n" ["a\n", "b\n"] :=
  c4_amended_prefix "x" "y\n" ["a\n", "b\n"] [] (by decide)

/-- C5: `select_disk` records the EFI partition path as the selected disk
name followed by `p1` and the LUKS partition path as the disk name followed
by `p2`; the derived pair depends only on the disk name, not on the prior
config state, so re-running the derivation yields the same paths. -/
theorem c5_partition_path_derivation (cfg : Config) (d : String) :
    cfgGet (select_disk_update cfg d) "partitions.phys.efi" = some (d ++ "p1")
    ∧ cfgGet (select_disk_update cfg d) "partitions.phys.luks" = some (d ++ "p2")
    ∧ ∀ cfg2 : Config,
        cfgGet (select_disk_update cfg d) "partitions.phys.efi"
          = cfgGet (select_disk_update cfg2 d) "partitions.phys.efi"
        ∧ cfgGet (select_disk_update cfg d) "partitions.phys.luks"
          = cfgGet (select_disk_update cfg2 d) "partitions.phys.luks" := by
  refine ⟨?_, ?_, fun cfg2 => ⟨?_, ?_⟩⟩ <;>
    simp [select_disk_update, cfgSet, cfgGet, assocGet]

/-- If some path in the list is absent, `validate_file_paths` raises (with
its constant, un-interpolated message). -/
theorem validate_file_paths_some_of_missing (fs : String → Bool) :
    ∀ (l : List String) (p : String), p ∈ l → fs p = false →
      validate_file_paths fs l = some pathErrMsg := by
  intro l
  induction l with
  | nil => intro p hp; exact absurd hp (List.not_mem_nil p)
  | cons q qs ih =>
    intro p hp hfp
    cases hfq : fs q with
    | false => simp [validate_file_paths, hfq]
    | true =>
      rcases List.mem_cons.mp hp with h | h
      · subst h; simp [hfq] at hfp
      · simp [validate_file_paths, hfq, ih p h hfp]

/-- C1: whenever one of the four device paths recorded in the config (EFI,
root, home, swap) does not exist on the filesystem, `format_partitions`
raises before issuing any mkfs/mkswap command and `mount_partitions` raises
before issuing any mount/mkdir/swapon command: both stages issue no
subprocess command at all. -/
theorem c1_missing_path_no_commands (cfg : Config) (fs : String → Bool)
    (efi root home swap : String)
    (h1 : cfgGet cfg "partitions.phys.efi" = some efi)
    (h2 : cfgGet cfg "partitions.lvm.root" = some root)
    (h3 : cfgGet cfg "partitions.lvm.home" = some home)
    (h4 : cfgGet cfg "partitions.lvm.swap" = some swap)
    (hmiss : fs efi = false ∨ fs root = false ∨ fs home = false ∨ fs swap = false) :
    (format_partitions cfg fs).cmds = []
    ∧ (format_partitions cfg fs).err.isSome = true
    ∧ (mount_partitions cfg fs).cmds = []
    ∧ (mount_partitions cfg fs).err.isSome = true := by
  have hv : validate_file_paths fs [efi, root, home, swap] = some pathErrMsg := by
    rcases hmiss with h | h | h | h <;>
      exact validate_file_paths_some_of_missing fs [efi, root, home, swap] _ (by simp) h
  refine ⟨?_, ?_, ?_, ?_⟩ <;>
    cases hmp : cfgGet cfg "mount_path" <;>
      simp [format_partitions, mount_partitions, h1, h2, h3, h4, hv, hmp]

/-- C1 witnessed at a concrete input: a config holding the four derived
paths over a filesystem on which none of them exists. -/
theorem c1_missing_path_no_commands_witness :
    (format_partitions
        [("partitions.phys.efi", "/dev/sda1"), ("partitions.lvm.root", "/dev/vg/root"),
         ("partitions.lvm.home", "/dev/vg/home"), ("partitions.lvm.swap", "/dev/vg/swap"),
         ("mount_path", "/mnt")] (fun _ => false)).cmds = []
    ∧ (format_partitions
        [("partitions.phys.efi", "/dev/sda1"), ("partitions.lvm.root", "/dev/vg/root"),
         ("partitions.lvm.home", "/dev/vg/home"), ("partitions.lvm.swap", "/dev/vg/swap"),
         ("mount_path", "/mnt")] (fun _ => false)).err.isSome = true
    ∧ (mount_partitions
        [("partitions.phys.efi", "/dev/sda1"), ("partitions.lvm.root", "/dev/vg/root"),
         ("partitions.lvm.home", "/dev/vg/home"), ("partitions.lvm.swap", "/dev/vg/swap"),
         ("mount_path", "/mnt")] (fun _ => false)).cmds = []
    ∧ (mount_partitions
        [("partitions.phys.efi", "/dev/sda1"), ("partitions.lvm.root", "/dev/vg/root"),
         ("partitions.lvm.home", "/dev/vg/home"), ("partitions.lvm.swap", "/dev/vg/swap"),
         ("mount_path", "/mnt")] (fun _ => false)).err.isSome = true :=
  c1_missing_path_no_commands _ (fun _ => false)
    "/dev/sda1" "/dev/vg/root" "/dev/vg/home" "/dev/vg/swap"
    rfl rfl rfl rfl (Or.inl rfl)

/-- C6: with the configured sizes and names read from the config,
`create_lvm_partitions` on an existing mapped device issues exactly the
pvcreate/vgcreate command pair followed by the swap and root lvcreate
commands sized by `swap_size` and `root_size`, creates home last with all
remaining space (`100%FREE`), and records exactly the three logical-volume
device paths into the runtime config; on an absent mapped device it raises
before issuing any volume-creation command. -/
theorem c6_create_lvm_partitions_spec (cfg : Config) (fs : String → Bool)
    (swapSize rootSize volGrp luksName : String)
    (h1 : cfgGet cfg "swap_size" = some swapSize)
    (h2 : cfgGet cfg "root_size" = some rootSize)
    (h3 : cfgGet cfg "volume_group" = some volGrp)
    (h4 : cfgGet cfg "luks_name" = some luksName) :
    (fs ("/dev/mapper/" ++ luksName) = true →
      (create_lvm_partitions cfg fs).cmds
        = ["pvcreate " ++ ("/dev/mapper/" ++ luksName),
           "vgcreate " ++ volGrp ++ " " ++ ("/dev/mapper/" ++ luksName),
           "lvcreate -L " ++ swapSize ++ " " ++ volGrp ++ " -n swap",
           "lvcreate -L " ++ rootSize ++ " " ++ volGrp ++ " -n root",
           "lvcreate -l 100%FREE " ++ volGrp ++ " -n home"]
      ∧ (create_lvm_partitions cfg fs).cmds.getLast?
          = some ("lvcreate -l 100%FREE " ++ volGrp ++ " -n home")
      ∧ (create_lvm_partitions cfg fs).updates
          = [("partitions.lvm.root", "/dev/" ++ volGrp ++ "/root"),
             ("partitions.lvm.home", "/dev/" ++ volGrp ++ "/home"),
             ("partitions.lvm.swap", "/dev/" ++ volGrp ++ "/swap")]
      ∧ (create_lvm_partitions cfg fs).err = none)
    ∧ (fs ("/dev/mapper/" ++ luksName) = false →
      (create_lvm_partitions cfg fs).cmds = []
      ∧ (create_lvm_partitions cfg fs).err.isSome = true
      ∧ (create_lvm_partitions cfg fs).updates = []) := by
  constructor
  · intro hfs
    refine ⟨?_, ?_, ?_, ?_⟩ <;>
      simp [create_lvm_partitions, h1, h2, h3, h4, hfs]
  · intro hfs
    refine ⟨?_, ?_, ?_⟩ <;>
      simp [create_lvm_partitions, h1, h2, h3, h4, hfs]

/-- C6 witnessed at a concrete input: the sample settings with an existing
mapped device on the one hand and an absent one on the other. -/
theorem c6_create_lvm_partitions_witness :
    ((fun _ => true : String → Bool) ("/dev/mapper/" ++ "cryptlvm") = true →
      (create_lvm_partitions sampleSettingsAll (fun _ => true)).cmds
        = ["pvcreate " ++ ("/dev/mapper/" ++ "cryptlvm"),
           "vgcreate " ++ "vg" ++ " " ++ ("/dev/mapper/" ++ "cryptlvm"),
           "lvcreate -L " ++ "16G" ++ " " ++ "vg" ++ " -n swap",
           "lvcreate -L " ++ "128G" ++ " " ++ "vg" ++ " -n root",
           "lvcreate -l 100%FREE " ++ "vg" ++ " -n home"]
      ∧ (create_lvm_partitions sampleSettingsAll (fun _ => true)).cmds.getLast?
          = some ("lvcreate -l 100%FREE " ++ "vg" ++ " -n home")
      ∧ (create_lvm_partitions sampleSettingsAll (fun _ => true)).updates
          = [("partitions.lvm.root", "/dev/" ++ "vg" ++ "/root"),
             ("partitions.lvm.home", "/dev/" ++ "vg" ++ "/home"),
             ("partitions.lvm.swap", "/dev/" ++ "vg" ++ "/swap")]
      ∧ (create_lvm_partitions sampleSettingsAll (fun _ => true)).err = none)
    ∧ ((fun _ => true : String → Bool) ("/dev/mapper/" ++ "cryptlvm") = false →
      (create_lvm_partitions sampleSettingsAll (fun _ => true)).cmds = []
      ∧ (create_lvm_partitions sampleSettingsAll (fun _ => true)).err.isSome = true
      ∧ (create_lvm_partitions sampleSettingsAll (fun _ => true)).updates = []) :=
  c6_create_lvm_partitions_spec sampleSettingsAll (fun _ => true)
    "16G" "128G" "vg" "cryptlvm" rfl rfl rfl rfl

/-- C7: the exception raised by `validate_file_paths` for a missing path
carries the constant message with literal braces — line 41 of
install_util.py omits `.format(path)` — so the message does not contain the
missing path; evaluated at the concrete missing path `/dev/sda1`. -/
theorem c7_error_message_lacks_path (fs : String → Bool) (p : String)
    (ps : List String) (h : fs p = false) :
    validate_file_paths fs (p :: ps) = some pathErrMsg
    ∧ pathErrMsg = "\x7b\x7d does not exist"
    ∧ strContainsSub pathErrMsg "/dev/sda1" = false := by
  refine ⟨?_, by decide, by decide⟩
  simp [validate_file_paths, h]

/-- C7 witnessed at the concrete missing path `/dev/sda1`. -/
theorem c7_error_message_lacks_path_witness :
    validate_file_paths (fun _ => false) ["/dev/sda1"] = some pathErrMsg
    ∧ pathErrMsg = "\x7b\x7d does not exist"
    ∧ strContainsSub pathErrMsg "/dev/sda1" = false :=
  c7_error_message_lacks_path (fun _ => false) "/dev/sda1" [] rfl

/-- Taking a string apart: `toList` distributes over append. -/
theorem strToListAppend : ∀ (a b : String), (a ++ b).toList = a.toList ++ b.toList
  | ⟨_⟩, ⟨_⟩ => rfl

/-- The key-validation loop reports `k` when `k` is the one required key
missing from the section (any other required key is present). -/
theorem checkKeys_finds (s : Config) (k : String) :
    ∀ ks : List String, k ∈ ks → cfgGet s k = none →
      (∀ k2 ∈ ks, k2 ≠ k → (cfgGet s k2).isSome = true) →
      checkKeys s ks = some k := by
  intro ks
  induction ks with
  | nil => intro h; exact absurd h (List.not_mem_nil k)
  | cons k0 ks ih =>
    intro hmem hnone hoth
    by_cases hk0 : k0 = k
    · subst hk0; simp [checkKeys, hnone]
    · have hsome : (cfgGet s k0).isSome = true :=
        hoth k0 (List.mem_cons_self k0 ks) hk0
      have hk : k ∈ ks := by
        rcases List.mem_cons.mp hmem with h | h
        · exact absurd h.symm hk0
        · exact h
      simp only [checkKeys, hsome, if_true]
      exact ih hk hnone (fun k2 h2 hne => hoth k2 (List.mem_cons_of_mem k0 h2) hne)

/-- C2: for a config file that exists and has all three consumed sections,
if exactly the required key `k` is missing from the Install.Config section
then `Installer.__init__` fails with the missing-key error for `k`, whose
message names `k`. -/
theorem c2_missing_key_fails_named (f : ConfFile)
    (pacSec cfgSec yaySec : List (String × String)) (k : String)
    (hpac : secGet f "Pacman.Pkgs" = some pacSec)
    (hins : secGet f "Install.Config" = some cfgSec)
    (hyay : secGet f "Yay.Pkgs" = some yaySec)
    (hk : k ∈ CONFIG_FILE_SETTINGS_LIST)
    (hmiss : cfgGet cfgSec k = none)
    (hoth : ∀ k2 ∈ CONFIG_FILE_SETTINGS_LIST, k2 ≠ k → (cfgGet cfgSec k2).isSome = true) :
    installerInit true f = Except.error (InstallError.configKeyMissing k)
    ∧ (InstallError.configKeyMissing k).message
        = "Key " ++ k ++ " missing from Install.Config section of config"
    ∧ List.IsInfix k.toList ((InstallError.configKeyMissing k).message).toList := by
  refine ⟨?_, rfl, ?_⟩
  · have hck := checkKeys_finds cfgSec k CONFIG_FILE_SETTINGS_LIST hk hmiss hoth
    simp [installerInit, hpac, hins, hyay, hck]
  · refine ⟨"Key ".toList, " missing from Install.Config section of config".toList, ?_⟩
    simp [InstallError.message, strToListAppend]

/-- C2 witnessed at a concrete input: the sample config file lacking the
required key `hostname`. -/
theorem c2_missing_key_fails_named_witness :
    installerInit true sampleConfFileNoHostname
      = Except.error (InstallError.configKeyMissing "hostname")
    ∧ (InstallError.configKeyMissing "hostname").message
        = "Key " ++ "hostname" ++ " missing from Install.Config section of config"
    ∧ List.IsInfix "hostname".toList
        ((InstallError.configKeyMissing "hostname").message).toList :=
  c2_missing_key_fails_named sampleConfFileNoHostname
    [("base", ""), ("linux", "")] sampleSettingsNoHostname [("spotify", "")]
    "hostname" rfl rfl rfl (by decide) (by decide) (by decide)

/-- C10: a config file that passes the header validation (both Pacman.Pkgs
and Install.Config present) but has no Yay.Pkgs section makes the
constructor fail with the KeyError of the `config_file["Yay.Pkgs"]` lookup —
which is neither the validator's missing-header error nor a missing-key
error — regardless of which required keys the Install.Config section holds,
i.e. before the required-key validation runs. -/
theorem c10_missing_yay_section_keyerror (f : ConfFile)
    (pacSec cfgSec : List (String × String))
    (hpac : secGet f "Pacman.Pkgs" = some pacSec)
    (hins : secGet f "Install.Config" = some cfgSec)
    (hyay : secGet f "Yay.Pkgs" = none) :
    installerInit true f = Except.error (InstallError.sectionKeyError "Yay.Pkgs")
    ∧ (∀ h, InstallError.sectionKeyError "Yay.Pkgs" ≠ InstallError.headerMissing h)
    ∧ (∀ k, InstallError.sectionKeyError "Yay.Pkgs" ≠ InstallError.configKeyMissing k) := by
  refine ⟨?_, fun h => by simp, fun k => by simp⟩
  simp [installerInit, hpac, hins, hyay]

/-- C10 witnessed at a concrete input: the sample config file that has both
validated sections and every required key but no Yay.Pkgs section. -/
theorem c10_missing_yay_section_keyerror_witness :
    installerInit true sampleConfFileNoYay
      = Except.error (InstallError.sectionKeyError "Yay.Pkgs")
    ∧ (∀ h, InstallError.sectionKeyError "Yay.Pkgs" ≠ InstallError.headerMissing h)
    ∧ (∀ k, InstallError.sectionKeyError "Yay.Pkgs" ≠ InstallError.configKeyMissing k) :=
  c10_missing_yay_section_keyerror sampleConfFileNoYay
    [("base", ""), ("linux", "")] sampleSettingsAll rfl rfl rfl

/-- C8: `install_grub` reads the config key `initram_hooks`, which is
neither among the validated file settings nor among the runtime keys
initialized to empty, and after a successful `__init__` on a config holding
exactly the required keys that lookup yields nothing — the stage fails with
a missing-key lookup despite the config having been validated. -/
theorem c8_initram_hooks_not_guaranteed :
    "initram_hooks" ∈ install_grub_read_keys
    ∧ "initram_hooks" ∉ CONFIG_FILE_SETTINGS_LIST
    ∧ "initram_hooks" ∉ CONFIG_RUNTIME_SETTINGS_LIST
    ∧ (installerInit true sampleConfFileFull).map
        (fun st => cfgGet st.config "initram_hooks") = Except.ok none :=
  ⟨by decide, by decide, by decide, rfl⟩

/-- C9 counterexample: with every spawned command exiting non-zero — in
particular the `systemctl enable sshd` command fails — the service loop
still issues the enable command for the later service `ntpd` and raises
nothing: a failing enablement does not abort the remaining enablements,
because `execute` runs `subprocess.run` without `check=True`. -/
theorem c9_counterexample_failure_continues :
    (enable_services [("mount_path", "/mnt"), ("enable_services", "sshd ntpd")]
        (fun _ => some 1)).1
      = ["arch-chroot /mnt systemctl enable sshd",
         "arch-chroot /mnt systemctl enable ntpd"]
    ∧ (enable_services [("mount_path", "/mnt"), ("enable_services", "sshd ntpd")]
        (fun _ => some 1)).2 = none
    ∧ "arch-chroot /mnt systemctl enable ntpd"
        ∈ (enable_services [("mount_path", "/mnt"), ("enable_services", "sshd ntpd")]
            (fun _ => some 1)).1 := by
  decide

/-- If every command can be spawned, the enable loop issues one command per
service, in order, and raises nothing, whatever the exit codes are. -/
theorem enableLoop_all_spawned (mnt : String) (spawn : String → Option Int)
    (hspawn : ∀ cmd, (spawn cmd).isSome = true) :
    ∀ l : List String,
      enableLoop mnt spawn l
        = (l.map (fun s => "arch-chroot " ++ mnt ++ " systemctl enable " ++ s), none) := by
  intro l
  induction l with
  | nil => rfl
  | cons s ss ih =>
    rcases Option.isSome_iff_exists.mp
      (hspawn ("arch-chroot " ++ mnt ++ " systemctl enable " ++ s)) with ⟨rc, hrc⟩
    simp [enableLoop, hrc, ih]

/-- C9 amended: as long as the `systemctl enable` commands can be spawned at
all, `enable_services` issues an enable command for every configured
service regardless of individual command failures (non-zero exit codes are
discarded); only an exception while spawning a process aborts the loop. -/
theorem c9_amended_all_services_attempted (cfg : Config)
    (spawn : String → Option Int) (mnt servs : String)
    (h1 : cfgGet cfg "mount_path" = some mnt)
    (h2 : cfgGet cfg "enable_services" = some servs)
    (hspawn : ∀ cmd, (spawn cmd).isSome = true) :
    (enable_services cfg spawn).1
      = (splitWs servs).map (fun s => "arch-chroot " ++ mnt ++ " systemctl enable " ++ s)
    ∧ (enable_services cfg spawn).2 = none := by
  simp [enable_services, h1, h2, enableLoop_all_spawned mnt spawn hspawn]

/-- C9 amended, witnessed at a concrete input where every command exits
with code 1. -/
theorem c9_amended_all_services_attempted_witness :
    (enable_services [("mount_path", "/mnt"), ("enable_services", "sshd ntpd")]
        (fun _ => some 1)).1
      = (splitWs "sshd ntpd").map
          (fun s => "arch-chroot " ++ "/mnt" ++ " systemctl enable " ++ s)
    ∧ (enable_services [("mount_path", "/mnt"), ("enable_services", "sshd ntpd")]
        (fun _ => some 1)).2 = none :=
  c9_amended_all_services_attempted
    [("mount_path", "/mnt"), ("enable_services", "sshd ntpd")]
    (fun _ => some 1) "/mnt" "sshd ntpd" rfl rfl (fun _ => rfl)
